import Mathlib

/-
  Verification of the Supermodel logging subsystem (Src/OSD/Logger.cpp).

  The sinks (CConsoleErrorLogger, CFileLogger, CSystemLogger), the fan-out
  dispatcher (CMultiLogger), the factory (CreateLogger / GetLogLevel) and the
  free entry points (DebugLog / InfoLog / ErrorLog) are embedded as pure
  functions over an explicit event trace.  I/O is modelled as a list of
  events (writes to the console error stream, file handles, pre-opened
  process streams, the system log facility, and file close/open actions);
  stateful objects (the file logger, the installed dispatcher) are threaded
  explicitly.  File-open success is abstracted by an oracle
  openOk : String → Bool.
-/

namespace Supermodel

/-- Modelled from the spec: the success indicator OKAY from the header Types.h,
which is absent from this slice; only its distinctness from FAIL is used. -/
def OKAY : Bool := true

/-- Modelled from the spec: the failure indicator FAIL from the header Types.h,
which is absent from this slice; only its distinctness from OKAY is used. -/
def FAIL : Bool := false

/-- Modelled from the spec: the severity enumeration CLogger::LogLevel from the
header OSD/Logger.h, which is absent from this slice.  The spec fixes the order
Debug < Info < Error and requires the sentinel All to sit numerically below
Debug so that it never fails the skip comparison. -/
inductive LogLevel
  | all
  | debug
  | info
  | error
deriving DecidableEq

/-- Numeric value of a severity, reproducing the enum encoding (All = 0,
Debug = 1, Info = 2, Error = 3). -/
def LogLevel.toNat : LogLevel → Nat
  | LogLevel.all => 0
  | LogLevel.debug => 1
  | LogLevel.info => 2
  | LogLevel.error => 3

/-- Modelled from the spec: ASCII lower-casing of one character, as done by the
absent helper Util::ToLower. -/
def toLowerChar (c : Char) : Char :=
  if 'A' ≤ c ∧ c ≤ 'Z' then Char.ofNat (c.toNat + 32) else c

/-- Modelled from the spec: the lower-casing string helper Util::ToLower,
absent from this slice. -/
def ToLower (s : String) : String := String.mk (s.data.map toLowerChar)

/-- ASCII whitespace test used by the trimming helper. -/
def isWhite (c : Char) : Bool := c == ' ' || c == '\t' || c == '\n' || c == '\r'

/-- Modelled from the spec: the surrounding-whitespace trimming helper
Util::TrimWhiteSpace, absent from this slice. -/
def TrimWhiteSpace (s : String) : String :=
  String.mk (((s.data.dropWhile isWhite).reverse.dropWhile isWhite).reverse)

/-- Splitting of a character list on the comma delimiter. -/
def splitCommaChars : List Char → List (List Char)
  | [] => [[]]
  | c :: cs =>
    let r := splitCommaChars cs
    if c = ',' then [] :: r
    else
      match r with
      | [] => [[c]]
      | g :: gs => (c :: g) :: gs

/-- Modelled from the spec: Util::Format(...).Split of the destination list on
commas, absent from this slice. -/
def SplitOnComma (s : String) : List String :=
  (splitCommaChars s.data).map (fun cs => String.mk cs)

/-- Byte-lexicographic comparison of character lists, reproducing the
std::string ordering that std::set uses. -/
def ltCharList : List Char → List Char → Bool
  | [], [] => false
  | [], _ :: _ => true
  | _ :: _, [] => false
  | a :: as, b :: bs => if a < b then true else if b < a then false else ltCharList as bs

/-- Byte-lexicographic string comparison (std::string operator less). -/
def strLt (a b : String) : Bool := ltCharList a.data b.data

/-- Ordered duplicate-free insertion, modelling std::set of std::string:
exact-match deduplication under byte-lexicographic order. -/
def setInsert (x : String) : List String → List String
  | [] => [x]
  | y :: ys => if strLt x y then x :: y :: ys else if x = y then y :: ys else y :: setInsert x ys

/-- A pre-opened process stream handed to the file logger (stdout / stderr). -/
inductive SysStream
  | stdout
  | stderr
deriving DecidableEq

/-- File open mode used by CFileLogger::ReopenFiles (std::ios::out truncates,
std::ios::app appends). -/
inductive OpenMode
  | out
  | app
deriving DecidableEq

/-- Priority handed to the platform syslog call by CSystemLogger. -/
inductive SysPriority
  | logDebug
  | logInfo
  | logErr
deriving DecidableEq

/-- Observable I/O events of the logging subsystem. -/
inductive Ev
  | conWrite (s : String)
  | fileWrite (path : String) (s : String)
  | streamWrite (t : SysStream) (s : String)
  | fileClose (path : String)
  | fileOpen (path : String) (mode : OpenMode) (ok : Bool)
  | sysLog (p : SysPriority) (s : String)
deriving DecidableEq

/-- State of a CFileLogger: severity floor, configured file paths, currently
open file handles (identified by path), and pre-opened process streams. -/
structure CFileLogger where
  m_logLevel : LogLevel
  m_logFilenames : List String
  m_logFiles : List String
  m_systemFiles : List SysStream
deriving DecidableEq

/-- CFileLogger::WriteToFiles: write the string to every open file handle,
then to every pre-opened stream. -/
def CFileLogger.WriteToFiles (st : CFileLogger) (s : String) : List Ev :=
  st.m_logFiles.map (fun p => Ev.fileWrite p s) ++ st.m_systemFiles.map (fun t => Ev.streamWrite t s)

/-- CFileLogger::ReopenFiles: close every open handle, clear the handle list,
then open every configured path in the given mode, keeping the ones that
succeed (per the openOk oracle). -/
def CFileLogger.ReopenFiles (openOk : String → Bool) (mode : OpenMode) (st : CFileLogger) :
    CFileLogger × List Ev :=
  ({ st with m_logFiles := st.m_logFilenames.filter openOk },
   st.m_logFiles.map Ev.fileClose ++ st.m_logFilenames.map (fun f => Ev.fileOpen f mode (openOk f)))

/-- The line CFileLogger::DebugLog formats: snprintf with format [Debug] %s\n. -/
def CFileLogger.debugLine (message : String) : String := "[Debug] " ++ message ++ "\n"

/-- The line CFileLogger::InfoLog formats: snprintf with format [Info] %s\n. -/
def CFileLogger.infoLine (message : String) : String := "[Info] " ++ message ++ "\n"

/-- The line CFileLogger::ErrorLog formats: snprintf with format [Error] %s\n. -/
def CFileLogger.errorLine (message : String) : String := "[Error] " ++ message ++ "\n"

/-- CFileLogger::DebugLog: skip when the floor is above Debug, else write the
prefixed line; the reopen step is deliberately skipped for debug volume. -/
def CFileLogger.DebugLog (st : CFileLogger) (message : String) : CFileLogger × List Ev :=
  if LogLevel.toNat st.m_logLevel > LogLevel.toNat LogLevel.debug then (st, [])
  else (st, st.WriteToFiles (CFileLogger.debugLine message))

/-- CFileLogger::InfoLog: skip when the floor is above Info, else write the
prefixed line then close and reopen all files in append mode. -/
def CFileLogger.InfoLog (openOk : String → Bool) (st : CFileLogger) (message : String) :
    CFileLogger × List Ev :=
  if LogLevel.toNat st.m_logLevel > LogLevel.toNat LogLevel.info then (st, [])
  else
    let w := st.WriteToFiles (CFileLogger.infoLine message)
    let r := st.ReopenFiles openOk OpenMode.app
    (r.1, w ++ r.2)

/-- CFileLogger::ErrorLog: skip when the floor is above Error, else write the
prefixed line then close and reopen all files in append mode. -/
def CFileLogger.ErrorLog (openOk : String → Bool) (st : CFileLogger) (message : String) :
    CFileLogger × List Ev :=
  if LogLevel.toNat st.m_logLevel > LogLevel.toNat LogLevel.error then (st, [])
  else
    let w := st.WriteToFiles (CFileLogger.errorLine message)
    let r := st.ReopenFiles openOk OpenMode.app
    (r.1, w ++ r.2)

/-- The CFileLogger constructor: store level, filenames and pre-opened streams,
then perform the initial open of all paths in truncate mode. -/
def mkCFileLogger (openOk : String → Bool) (level : LogLevel) (filenames : List String)
    (systemFiles : List SysStream) : CFileLogger × List Ev :=
  CFileLogger.ReopenFiles openOk OpenMode.out
    { m_logLevel := level, m_logFilenames := filenames, m_logFiles := [], m_systemFiles := systemFiles }

/-- The string CSystemLogger::DebugLog formats: snprintf with format
[Debug] %s — no trailing newline. -/
def CSystemLogger.debugLine (message : String) : String := "[Debug] " ++ message

/-- The string CSystemLogger::InfoLog formats: snprintf with format [Info] %s\n. -/
def CSystemLogger.infoLine (message : String) : String := "[Info] " ++ message ++ "\n"

/-- The string CSystemLogger::ErrorLog formats: snprintf with format [Error] %s\n. -/
def CSystemLogger.errorLine (message : String) : String := "[Error] " ++ message ++ "\n"

/-- CSystemLogger::DebugLog: skip when the floor is above Debug, else hand the
prefixed string (no trailing newline) to the platform log facility. -/
def CSystemLogger.DebugLog (lvl : LogLevel) (message : String) : List Ev :=
  if LogLevel.toNat lvl > LogLevel.toNat LogLevel.debug then []
  else [Ev.sysLog SysPriority.logDebug (CSystemLogger.debugLine message)]

/-- CSystemLogger::InfoLog: skip when the floor is above Info, else hand the
prefixed string with trailing newline to the platform log facility. -/
def CSystemLogger.InfoLog (lvl : LogLevel) (message : String) : List Ev :=
  if LogLevel.toNat lvl > LogLevel.toNat LogLevel.info then []
  else [Ev.sysLog SysPriority.logInfo (CSystemLogger.infoLine message)]

/-- CSystemLogger::ErrorLog: skip when the floor is above Error, else hand the
prefixed string with trailing newline to the platform log facility. -/
def CSystemLogger.ErrorLog (lvl : LogLevel) (message : String) : List Ev :=
  if LogLevel.toNat lvl > LogLevel.toNat LogLevel.error then []
  else [Ev.sysLog SysPriority.logErr (CSystemLogger.errorLine message)]

/-- CConsoleErrorLogger::DebugLog is a no-op. -/
def CConsoleErrorLogger.DebugLog (_message : String) : List Ev := []

/-- CConsoleErrorLogger::InfoLog is a no-op. -/
def CConsoleErrorLogger.InfoLog (_message : String) : List Ev := []

/-- CConsoleErrorLogger::ErrorLog: fprintf of Error: %s\n to stderr. -/
def CConsoleErrorLogger.ErrorLog (message : String) : List Ev :=
  [Ev.conWrite ("Error: " ++ message ++ "\n")]

/-- A constructed sink: the console error logger, a file logger carrying its
state, or the system logger carrying its severity floor. -/
inductive Sink
  | console
  | file (st : CFileLogger)
  | system (lvl : LogLevel)
deriving DecidableEq

/-- Virtual dispatch of DebugLog on one sink. -/
def Sink.DebugLog (message : String) : Sink → Sink × List Ev
  | Sink.console => (Sink.console, CConsoleErrorLogger.DebugLog message)
  | Sink.file st =>
    let r := st.DebugLog message
    (Sink.file r.1, r.2)
  | Sink.system lvl => (Sink.system lvl, CSystemLogger.DebugLog lvl message)

/-- Virtual dispatch of InfoLog on one sink. -/
def Sink.InfoLog (openOk : String → Bool) (message : String) : Sink → Sink × List Ev
  | Sink.console => (Sink.console, CConsoleErrorLogger.InfoLog message)
  | Sink.file st =>
    let r := st.InfoLog openOk message
    (Sink.file r.1, r.2)
  | Sink.system lvl => (Sink.system lvl, CSystemLogger.InfoLog lvl message)

/-- Virtual dispatch of ErrorLog on one sink. -/
def Sink.ErrorLog (openOk : String → Bool) (message : String) : Sink → Sink × List Ev
  | Sink.console => (Sink.console, CConsoleErrorLogger.ErrorLog message)
  | Sink.file st =>
    let r := st.ErrorLog openOk message
    (Sink.file r.1, r.2)
  | Sink.system lvl => (Sink.system lvl, CSystemLogger.ErrorLog lvl message)

/-- CMultiLogger::DebugLog: forward the message to every sink in order. -/
def CMultiLogger.DebugLog (message : String) : List Sink → List Sink × List Ev
  | [] => ([], [])
  | s :: rest =>
    let r1 := s.DebugLog message
    let r2 := CMultiLogger.DebugLog message rest
    (r1.1 :: r2.1, r1.2 ++ r2.2)

/-- CMultiLogger::InfoLog: forward the message to every sink in order. -/
def CMultiLogger.InfoLog (openOk : String → Bool) (message : String) :
    List Sink → List Sink × List Ev
  | [] => ([], [])
  | s :: rest =>
    let r1 := s.InfoLog openOk message
    let r2 := CMultiLogger.InfoLog openOk message rest
    (r1.1 :: r2.1, r1.2 ++ r2.2)

/-- CMultiLogger::ErrorLog: forward the message to every sink in order. -/
def CMultiLogger.ErrorLog (openOk : String → Bool) (message : String) :
    List Sink → List Sink × List Ev
  | [] => ([], [])
  | s :: rest =>
    let r1 := s.ErrorLog openOk message
    let r2 := CMultiLogger.ErrorLog openOk message rest
    (r1.1 :: r2.1, r1.2 ++ r2.2)

/-- The free entry point DebugLog: if no dispatcher is installed, do nothing;
else forward the already-formatted message.  Yields the updated installed
dispatcher and the emitted events. -/
def DebugLog (installed : Option (List Sink)) (message : String) :
    Option (List Sink) × List Ev :=
  match installed with
  | none => (none, [])
  | some sinks =>
    let r := CMultiLogger.DebugLog message sinks
    (some r.1, r.2)

/-- The free entry point InfoLog: if no dispatcher is installed, do nothing;
else forward the already-formatted message. -/
def InfoLog (openOk : String → Bool) (installed : Option (List Sink)) (message : String) :
    Option (List Sink) × List Ev :=
  match installed with
  | none => (none, [])
  | some sinks =>
    let r := CMultiLogger.InfoLog openOk message sinks
    (some r.1, r.2)

/-- The free entry point ErrorLog: if no dispatcher is installed, return FAIL
with no effect; else forward the already-formatted message and return FAIL. -/
def ErrorLog (openOk : String → Bool) (installed : Option (List Sink)) (message : String) :
    Bool × Option (List Sink) × List Ev :=
  match installed with
  | none => (FAIL, none, [])
  | some sinks =>
    let r := CMultiLogger.ErrorLog openOk message sinks
    (FAIL, some r.1, r.2)

/-- The configuration slice read by the factory: the LogLevel and LogOutput
keys of the Config::Node collaborator, each possibly absent. -/
structure Config where
  logLevel : Option String := none
  logOutput : Option String := none

/-- The fixed lookup table logLevelByString of GetLogLevel. -/
def logLevelByString (s : String) : Option LogLevel :=
  if s = "debug" then some LogLevel.debug
  else if s = "info" then some LogLevel.info
  else if s = "error" then some LogLevel.error
  else if s = "all" then some LogLevel.all
  else none

/-- GetLogLevel: read the LogLevel key (default info), lower-case it and look
it up; on failure report the invalid token through the free ErrorLog entry
point and yield FAIL with the Info placeholder.  Threads the installed
dispatcher (which the ErrorLog call may update) and the emitted events. -/
def GetLogLevel (openOk : String → Bool) (installed : Option (List Sink)) (config : Config) :
    (Bool × LogLevel) × Option (List Sink) × List Ev :=
  let logLevel := ToLower (config.logLevel.getD "info")
  match logLevelByString logLevel with
  | some lvl => ((OKAY, lvl), installed, [])
  | none =>
    let r := ErrorLog openOk installed ("Invalid log level: " ++ logLevel)
    ((FAIL, LogLevel.info), r.2.1, r.2.2)

/-- The set of reserved destination keywords of CreateLogger (as the sorted
contents of the std::set supportedDestinations). -/
def supportedDestinations : List String := ["stderr", "stdout", "syslog"]

/-- The destination-classification loop of CreateLogger: canonicalize each
token (lower-case then trim); reserved keywords go into the destinations set;
non-empty remaining tokens go, trimmed but in original case, into the
filenames set. -/
def classifyOutputs (outputs : List String) : List String × List String :=
  outputs.foldl
    (fun acc output =>
      let canonicalizedOutput := TrimWhiteSpace (ToLower output)
      if supportedDestinations.contains canonicalizedOutput then
        (setInsert canonicalizedOutput acc.1, acc.2)
      else if canonicalizedOutput ≠ "" then
        (acc.1, setInsert (TrimWhiteSpace output) acc.2)
      else acc)
    ([], [])

/-- CreateLogger: resolve the severity (failing construction on a bad level),
always push the console sink, parse LogOutput into destinations and filenames,
build one file sink when any filename or pre-opened stream was resolved
(stdout before stderr), and one system sink when syslog was requested.
Yields the constructed sink list (none on failure), the threaded installed
dispatcher, and the emitted events. -/
def CreateLogger (openOk : String → Bool) (installed : Option (List Sink)) (config : Config) :
    Option (List Sink) × Option (List Sink) × List Ev :=
  let r := GetLogLevel openOk installed config
  if r.1.1 ≠ OKAY then (none, r.2.1, r.2.2)
  else
    let logLevel := r.1.2
    let outputs := SplitOnComma (config.logOutput.getD "")
    let parsed := classifyOutputs outputs
    let destinations := parsed.1
    let logFilenames := parsed.2
    let systemFiles :=
      (if destinations.contains "stdout" then [SysStream.stdout] else [])
        ++ (if destinations.contains "stderr" then [SysStream.stderr] else [])
    let filePart :=
      if logFilenames ≠ [] ∨ systemFiles ≠ [] then
        let f := mkCFileLogger openOk logLevel logFilenames systemFiles
        ([Sink.file f.1], f.2)
      else ([], ([] : List Ev))
    let sysPart := if destinations.contains "syslog" then [Sink.system logLevel] else []
    (some (Sink.console :: filePart.1 ++ sysPart), r.2.1, r.2.2 ++ filePart.2)

/-- Projection of one event onto the process standard error stream: the
console sink writes there via fprintf(stderr, ...), and the file sink writes
there when stderr is among its pre-opened streams. -/
def stderrStringOf : Ev → Option String
  | Ev.conWrite s => some s
  | Ev.streamWrite SysStream.stderr s => some s
  | _ => none

/-- All strings an event trace writes to the process standard error stream. -/
def stderrStrings (evs : List Ev) : List String := evs.filterMap stderrStringOf

/-- Test for a console-sink write event. -/
def isConWrite : Ev → Bool
  | Ev.conWrite _ => true
  | _ => false

/-- The console-sink writes of an event trace. -/
def conWrites (evs : List Ev) : List Ev := evs.filter isConWrite

/-- The staging buffer declared in CFileLogger::DebugLog:
char log_message[MAX_LOG_LENGTH + 9]. -/
def CFileLogger.debugBufSize (maxLogLength : Nat) : Nat := maxLogLength + 9

/-- The staging buffer declared in CFileLogger::InfoLog:
char log_message[MAX_LOG_LENGTH + 8]. -/
def CFileLogger.infoBufSize (maxLogLength : Nat) : Nat := maxLogLength + 8

/-- The staging buffer declared in CFileLogger::ErrorLog:
char log_message[MAX_LOG_LENGTH + 9]. -/
def CFileLogger.errorBufSize (maxLogLength : Nat) : Nat := maxLogLength + 9

/-- The staging buffer declared in CSystemLogger::DebugLog:
char log_message[MAX_LOG_LENGTH + 8]; its format string appends no newline. -/
def CSystemLogger.debugBufSize (maxLogLength : Nat) : Nat := maxLogLength + 8

/-- Dispatch of one message at a given severity level to the file logger: a
formalization device ranging over the three message entry points (the All
case is unreachable for messages and yields no effect). -/
def CFileLogger.logAt (openOk : String → Bool) (l : LogLevel) (st : CFileLogger)
    (message : String) : CFileLogger × List Ev :=
  match l with
  | LogLevel.debug => st.DebugLog message
  | LogLevel.info => st.InfoLog openOk message
  | LogLevel.error => st.ErrorLog openOk message
  | LogLevel.all => (st, [])

/-- Dispatch of one message at a given severity level to the system logger. -/
def CSystemLogger.logAt (lvl l : LogLevel) (message : String) : List Ev :=
  match l with
  | LogLevel.debug => CSystemLogger.DebugLog lvl message
  | LogLevel.info => CSystemLogger.InfoLog lvl message
  | LogLevel.error => CSystemLogger.ErrorLog lvl message
  | LogLevel.all => []

/-- The line the file logger formats for a message at a given level. -/
def CFileLogger.lineAt (l : LogLevel) (message : String) : String :=
  match l with
  | LogLevel.debug => CFileLogger.debugLine message
  | LogLevel.info => CFileLogger.infoLine message
  | LogLevel.error => CFileLogger.errorLine message
  | LogLevel.all => ""

/-- The destination-keyword set CreateLogger resolves from a configuration. -/
def destinationsOf (config : Config) : List String :=
  (classifyOutputs (SplitOnComma (config.logOutput.getD ""))).1

/-- The candidate-filename set CreateLogger resolves from a configuration. -/
def logFilenamesOf (config : Config) : List String :=
  (classifyOutputs (SplitOnComma (config.logOutput.getD ""))).2

/-- The pre-opened streams CreateLogger resolves from a configuration:
stdout before stderr, each present only if its keyword was configured. -/
def systemFilesOf (config : Config) : List SysStream :=
  (if (destinationsOf config).contains "stdout" then [SysStream.stdout] else [])
    ++ (if (destinationsOf config).contains "stderr" then [SysStream.stderr] else [])

/-
  Theorems for the claims.
-/

/-- C4: with no dispatcher installed, the debug- and info-level entry points
have no observable effect and the error-level entry point produces no output
yet returns the failure indicator; with a dispatcher installed, the
error-level entry point forwards the formatted message and still returns the
failure indicator — it returns FAIL in every case. -/
theorem entry_points_no_logger (openOk : String → Bool) (message : String) :
    DebugLog none message = (none, [])
    ∧ InfoLog openOk none message = (none, [])
    ∧ ErrorLog openOk none message = (FAIL, none, [])
    ∧ (∀ installed, (ErrorLog openOk installed message).1 = FAIL)
    ∧ (∀ sinks, ErrorLog openOk (some sinks) message
        = (FAIL, some (CMultiLogger.ErrorLog openOk message sinks).1,
           (CMultiLogger.ErrorLog openOk message sinks).2)) := by
  refine ⟨rfl, rfl, rfl, ?_, fun sinks => rfl⟩
  intro installed
  cases installed <;> rfl

/-- C3: when the lower-cased LogLevel string (defaulting to info when the key
is absent) is none of debug, info, error, all, severity resolution yields the
failure indicator and CreateLogger returns no dispatcher and constructs no
sinks. -/
theorem invalid_loglevel_fails_construction (openOk : String → Bool)
    (installed : Option (List Sink)) (config : Config)
    (h : ToLower (config.logLevel.getD "info") ≠ "debug"
      ∧ ToLower (config.logLevel.getD "info") ≠ "info"
      ∧ ToLower (config.logLevel.getD "info") ≠ "error"
      ∧ ToLower (config.logLevel.getD "info") ≠ "all") :
    (GetLogLevel openOk installed config).1.1 = FAIL
    ∧ (CreateLogger openOk installed config).1 = none := by
  obtain ⟨h1, h2, h3, h4⟩ := h
  have hl : logLevelByString (ToLower (config.logLevel.getD "info")) = none := by
    simp [logLevelByString, h1, h2, h3, h4]
  have hres : (GetLogLevel openOk installed config).1.1 = FAIL := by
    simp [GetLogLevel, hl]
  refine ⟨hres, ?_⟩
  simp [CreateLogger, hres, FAIL, OKAY]

/-- Witness for C3 at the configuration LogLevel = verbose. -/
theorem invalid_loglevel_fails_construction_witness :
    (GetLogLevel (fun _ => true) none { logLevel := some "verbose", logOutput := none }).1.1 = FAIL
    ∧ (CreateLogger (fun _ => true) none
        { logLevel := some "verbose", logOutput := none }).1 = none :=
  invalid_loglevel_fails_construction (fun _ => true) none
    { logLevel := some "verbose", logOutput := none } (by decide)

/-- C5 counterexample: parsing the destination list
stdout, STDOUT ,  FILE.txt,file.txt yields one pre-opened-stream keyword but
TWO candidate file paths, FILE.txt and file.txt: filename deduplication in
the std::set is exact-match, so differently-cased duplicates do NOT collapse
and the claimed single candidate file path is false. -/
theorem logoutput_dedup_cex :
    classifyOutputs (SplitOnComma "stdout, STDOUT ,  FILE.txt,file.txt")
      = (["stdout"], ["FILE.txt", "file.txt"])
    ∧ (classifyOutputs (SplitOnComma "stdout, STDOUT ,  FILE.txt,file.txt")).2.length ≠ 1 := by
  refine ⟨by decide, by decide⟩

/-- C5 amended: for the destination-list configuration
stdout, STDOUT ,  FILE.txt,file.txt, parsing yields exactly one pre-opened
stream (stdout — keyword tokens are lower-cased before insertion, so keyword
duplicates collapse case-insensitively) and exactly two candidate file paths,
FILE.txt and file.txt (filename deduplication is exact-match/case-sensitive,
so both casing variants are retained); each distinct destination appears in
the constructed FileSink target lists at most once. -/
theorem logoutput_dedup_amended :
    (CreateLogger (fun _ => true) none
        { logLevel := none, logOutput := some "stdout, STDOUT ,  FILE.txt,file.txt" }).1
      = some [Sink.console,
          Sink.file { m_logLevel := LogLevel.info,
                      m_logFilenames := ["FILE.txt", "file.txt"],
                      m_logFiles := ["FILE.txt", "file.txt"],
                      m_systemFiles := [SysStream.stdout] }]
    ∧ (["FILE.txt", "file.txt"] : List String).Nodup
    ∧ ([SysStream.stdout] : List SysStream).Nodup := by
  refine ⟨by decide, by decide, by decide⟩

/-- C9: every message the system logger accepts is handed to the platform
logging API as the severity tag followed by the message, with no trailing
newline in the debug case and with a trailing newline in the info and error
cases. -/
theorem syslog_message_strings (lvl : LogLevel) (message : String) :
    (LogLevel.toNat lvl ≤ LogLevel.toNat LogLevel.debug →
      CSystemLogger.DebugLog lvl message
        = [Ev.sysLog SysPriority.logDebug ("[Debug] " ++ message)])
    ∧ (LogLevel.toNat lvl ≤ LogLevel.toNat LogLevel.info →
      CSystemLogger.InfoLog lvl message
        = [Ev.sysLog SysPriority.logInfo ("[Info] " ++ message ++ "\n")])
    ∧ (LogLevel.toNat lvl ≤ LogLevel.toNat LogLevel.error →
      CSystemLogger.ErrorLog lvl message
        = [Ev.sysLog SysPriority.logErr ("[Error] " ++ message ++ "\n")]) := by
  refine ⟨fun h => ?_, fun h => ?_, fun h => ?_⟩ <;>
    simp [CSystemLogger.DebugLog, CSystemLogger.InfoLog, CSystemLogger.ErrorLog,
      CSystemLogger.debugLine, CSystemLogger.infoLine, CSystemLogger.errorLine,
      Nat.not_lt.mpr h]

/-- Witness for C9 at floor All and the message m. -/
theorem syslog_message_strings_witness :
    CSystemLogger.DebugLog LogLevel.all "m"
      = [Ev.sysLog SysPriority.logDebug ("[Debug] " ++ "m")]
    ∧ CSystemLogger.InfoLog LogLevel.all "m"
      = [Ev.sysLog SysPriority.logInfo ("[Info] " ++ "m" ++ "\n")]
    ∧ CSystemLogger.ErrorLog LogLevel.all "m"
      = [Ev.sysLog SysPriority.logErr ("[Error] " ++ "m" ++ "\n")] :=
  ⟨(syslog_message_strings LogLevel.all "m").1 (by decide),
   (syslog_message_strings LogLevel.all "m").2.1 (by decide),
   (syslog_message_strings LogLevel.all "m").2.2 (by decide)⟩

/-- C10: for every already-formatted message of length at most
MAX_LOG_LENGTH - 1 (the maximum the variadic entry points can produce), each
staging buffer holds the complete snprintf output — severity tag, message,
optional newline and NUL terminator — without truncation, and is exactly full
at the maximal message length. -/
theorem staging_buffer_exact_fit (maxLogLength : Nat) (message : String)
    (hL : 1 ≤ maxLogLength) (hm : message.length ≤ maxLogLength - 1) :
    ((CFileLogger.debugLine message).length + 1 ≤ CFileLogger.debugBufSize maxLogLength
    ∧ (CFileLogger.infoLine message).length + 1 ≤ CFileLogger.infoBufSize maxLogLength
    ∧ (CFileLogger.errorLine message).length + 1 ≤ CFileLogger.errorBufSize maxLogLength
    ∧ (CSystemLogger.debugLine message).length + 1 ≤ CSystemLogger.debugBufSize maxLogLength)
    ∧ (message.length = maxLogLength - 1 →
      ((CFileLogger.debugLine message).length + 1 = CFileLogger.debugBufSize maxLogLength
      ∧ (CFileLogger.infoLine message).length + 1 = CFileLogger.infoBufSize maxLogLength
      ∧ (CFileLogger.errorLine message).length + 1 = CFileLogger.errorBufSize maxLogLength
      ∧ (CSystemLogger.debugLine message).length + 1
          = CSystemLogger.debugBufSize maxLogLength)) := by
  have a1 : ("[Debug] " : String).length = 8 := rfl
  have a2 : ("[Info] " : String).length = 7 := rfl
  have a3 : ("[Error] " : String).length = 8 := rfl
  have a4 : ("\n" : String).length = 1 := rfl
  have e1 : (CFileLogger.debugLine message).length = 8 + message.length + 1 := by
    simp [CFileLogger.debugLine, String.length_append, a1, a4]
  have e2 : (CFileLogger.infoLine message).length = 7 + message.length + 1 := by
    simp [CFileLogger.infoLine, String.length_append, a2, a4]
  have e3 : (CFileLogger.errorLine message).length = 8 + message.length + 1 := by
    simp [CFileLogger.errorLine, String.length_append, a3, a4]
  have e4 : (CSystemLogger.debugLine message).length = 8 + message.length := by
    simp [CSystemLogger.debugLine, String.length_append, a1]
  rw [e1, e2, e3, e4]
  unfold CFileLogger.debugBufSize CFileLogger.infoBufSize CFileLogger.errorBufSize
    CSystemLogger.debugBufSize
  omega

/-- Witness for C10 at MAX_LOG_LENGTH = 2 and the maximal message x. -/
theorem staging_buffer_exact_fit_witness :
    ((CFileLogger.debugLine "x").length + 1 ≤ CFileLogger.debugBufSize 2
    ∧ (CFileLogger.infoLine "x").length + 1 ≤ CFileLogger.infoBufSize 2
    ∧ (CFileLogger.errorLine "x").length + 1 ≤ CFileLogger.errorBufSize 2
    ∧ (CSystemLogger.debugLine "x").length + 1 ≤ CSystemLogger.debugBufSize 2)
    ∧ ((CFileLogger.debugLine "x").length + 1 = CFileLogger.debugBufSize 2
    ∧ (CFileLogger.infoLine "x").length + 1 = CFileLogger.infoBufSize 2
    ∧ (CFileLogger.errorLine "x").length + 1 = CFileLogger.errorBufSize 2
    ∧ (CSystemLogger.debugLine "x").length + 1 = CSystemLogger.debugBufSize 2) :=
  ⟨(staging_buffer_exact_fit 2 "x" (by decide) (by decide)).1,
   (staging_buffer_exact_fit 2 "x" (by decide) (by decide)).2 (by decide)⟩

/-- C6: for the dispatcher built from LogLevel=error and LogOutput=stderr,
debug- and info-level dispatch writes nothing to the standard error stream,
while error-level dispatch writes exactly two lines there: Error: message
from the always-present console sink and [Error] message from the FileSink
pre-opened stderr stream. -/
theorem error_stderr_two_lines (openOk : String → Bool) (installed : Option (List Sink))
    (message : String) :
    ∃ sinks,
      (CreateLogger openOk installed
          { logLevel := some "error", logOutput := some "stderr" }).1 = some sinks
      ∧ stderrStrings (CMultiLogger.DebugLog message sinks).2 = []
      ∧ stderrStrings (CMultiLogger.InfoLog openOk message sinks).2 = []
      ∧ stderrStrings (CMultiLogger.ErrorLog openOk message sinks).2
          = ["Error: " ++ message ++ "\n", "[Error] " ++ message ++ "\n"] :=
  ⟨[Sink.console,
    Sink.file { m_logLevel := LogLevel.error, m_logFilenames := [], m_logFiles := [],
                m_systemFiles := [SysStream.stderr] }],
   rfl, rfl, rfl, rfl⟩

/-- Helper: the sink layout produced by CreateLogger under a successful
severity resolution. -/
theorem createLogger_layout_aux (openOk : String → Bool) (installed : Option (List Sink))
    (config : Config) (lvl : LogLevel)
    (h : logLevelByString (ToLower (config.logLevel.getD "info")) = some lvl) :
    (CreateLogger openOk installed config).1
      = some (Sink.console ::
          (if logFilenamesOf config ≠ [] ∨ systemFilesOf config ≠ [] then
            [Sink.file
              { m_logLevel := lvl,
                m_logFilenames := logFilenamesOf config,
                m_logFiles := (logFilenamesOf config).filter openOk,
                m_systemFiles := systemFilesOf config }]
          else [])
          ++ (if (destinationsOf config).contains "syslog" then [Sink.system lvl] else [])) := by
  simp only [CreateLogger, GetLogLevel, h, OKAY, ne_eq, not_true_eq_false, if_false,
    mkCFileLogger, CFileLogger.ReopenFiles, destinationsOf, logFilenamesOf, systemFilesOf]
  split_ifs <;> rfl

/-- Helper: a successful severity resolution means the lower-cased token is in
the lookup table, and the resolved level is the table entry. -/
theorem getLogLevel_okay (openOk : String → Bool) (installed : Option (List Sink))
    (config : Config) (hok : (GetLogLevel openOk installed config).1.1 = OKAY) :
    logLevelByString (ToLower (config.logLevel.getD "info"))
      = some (GetLogLevel openOk installed config).1.2 := by
  rcases hmatch : logLevelByString (ToLower (config.logLevel.getD "info")) with _ | lvl
  · rw [GetLogLevel] at hok
    simp only [hmatch] at hok
    exact absurd hok (by decide)
  · rw [GetLogLevel]
    simp only [hmatch]

/-- C2: whenever severity resolution succeeds, the factory returns exactly the
console sink, then one file sink if and only if a filename or a pre-opened
stream was resolved (carrying all filenames, the streams with stdout before
stderr, the resolved severity, and the initially opened handles), then one
system sink if and only if syslog was configured, carrying the resolved
severity. -/
theorem createLogger_sink_layout (openOk : String → Bool) (installed : Option (List Sink))
    (config : Config) (lvl : LogLevel)
    (h : logLevelByString (ToLower (config.logLevel.getD "info")) = some lvl) :
    (CreateLogger openOk installed config).1
      = some (Sink.console ::
          (if logFilenamesOf config ≠ [] ∨ systemFilesOf config ≠ [] then
            [Sink.file
              { m_logLevel := lvl,
                m_logFilenames := logFilenamesOf config,
                m_logFiles := (logFilenamesOf config).filter openOk,
                m_systemFiles := systemFilesOf config }]
          else [])
          ++ (if (destinationsOf config).contains "syslog" then [Sink.system lvl] else [])) :=
  createLogger_layout_aux openOk installed config lvl h

/-- Witness for C2 at LogLevel=all, LogOutput=syslog, x.log. -/
theorem createLogger_sink_layout_witness :
    (CreateLogger (fun _ => true) none
        { logLevel := some "all", logOutput := some "syslog, x.log" }).1
      = some [Sink.console,
          Sink.file { m_logLevel := LogLevel.all, m_logFilenames := ["x.log"],
                      m_logFiles := ["x.log"], m_systemFiles := [] },
          Sink.system LogLevel.all] :=
  createLogger_sink_layout (fun _ => true) none
    { logLevel := some "all", logOutput := some "syslog, x.log" } LogLevel.all (by decide)

/-- Helper: when the message level is strictly below the floor, the file
logger skips the message entirely. -/
theorem fileLogAt_skip (openOk : String → Bool) (l : LogLevel) (st : CFileLogger)
    (message : String)
    (hl : l = LogLevel.debug ∨ l = LogLevel.info ∨ l = LogLevel.error)
    (h : LogLevel.toNat l < LogLevel.toNat st.m_logLevel) :
    CFileLogger.logAt openOk l st message = (st, []) := by
  rcases hl with hl | hl | hl <;> subst hl <;>
    simp only [CFileLogger.logAt, CFileLogger.DebugLog, CFileLogger.InfoLog,
      CFileLogger.ErrorLog, LogLevel.toNat] at h ⊢ <;>
    (split
     · rfl
     · exfalso; omega)

/-- Helper: when the floor admits the message level, the file logger first
writes the formatted line to every open handle and pre-opened stream. -/
theorem fileLogAt_accept (openOk : String → Bool) (l : LogLevel) (st : CFileLogger)
    (message : String)
    (hl : l = LogLevel.debug ∨ l = LogLevel.info ∨ l = LogLevel.error)
    (h : LogLevel.toNat st.m_logLevel ≤ LogLevel.toNat l) :
    ∃ rest, (CFileLogger.logAt openOk l st message).2
      = st.WriteToFiles (CFileLogger.lineAt l message) ++ rest := by
  rcases hl with hl | hl | hl <;> subst hl <;>
    simp only [CFileLogger.logAt, CFileLogger.DebugLog, CFileLogger.InfoLog,
      CFileLogger.ErrorLog, CFileLogger.lineAt, LogLevel.toNat] at h ⊢ <;>
    (split
     · exfalso; omega
     · first
       | exact ⟨[], (List.append_nil _).symm⟩
       | exact ⟨(st.ReopenFiles openOk OpenMode.app).2, rfl⟩)

/-- Helper: when the message level is strictly below the floor, the system
logger skips the message entirely. -/
theorem sysLogAt_skip (s l : LogLevel) (message : String)
    (hl : l = LogLevel.debug ∨ l = LogLevel.info ∨ l = LogLevel.error)
    (h : LogLevel.toNat l < LogLevel.toNat s) :
    CSystemLogger.logAt s l message = [] := by
  rcases hl with hl | hl | hl <;> subst hl <;>
    simp only [CSystemLogger.logAt, CSystemLogger.DebugLog, CSystemLogger.InfoLog,
      CSystemLogger.ErrorLog, LogLevel.toNat] at h ⊢ <;>
    (split
     · rfl
     · exfalso; omega)

/-- Helper: when the floor admits the message level, the system logger hands
exactly one string to the platform facility. -/
theorem sysLogAt_accept (s l : LogLevel) (message : String)
    (hl : l = LogLevel.debug ∨ l = LogLevel.info ∨ l = LogLevel.error)
    (h : LogLevel.toNat s ≤ LogLevel.toNat l) :
    CSystemLogger.logAt s l message ≠ [] := by
  rcases hl with hl | hl | hl <;> subst hl <;>
    simp only [CSystemLogger.logAt, CSystemLogger.DebugLog, CSystemLogger.InfoLog,
      CSystemLogger.ErrorLog, LogLevel.toNat] at h ⊢ <;>
    (split
     · exfalso; omega
     · simp)

/-- C1: a file or system sink with severity floor s in {Debug, Info, Error}
emits a message logged at level l in {Debug, Info, Error} if and only if l is
numerically at least s (the skip test being floor greater than level): every
message strictly below the floor is dropped with no effect, and every message
at or above it is accepted. -/
theorem sink_severity_filter (s l : LogLevel)
    (_hs : s = LogLevel.debug ∨ s = LogLevel.info ∨ s = LogLevel.error)
    (hl : l = LogLevel.debug ∨ l = LogLevel.info ∨ l = LogLevel.error)
    (openOk : String → Bool) (message : String) (st : CFileLogger)
    (hfloor : st.m_logLevel = s) (ht : st.m_systemFiles ≠ []) :
    ((∃ t, Ev.streamWrite t (CFileLogger.lineAt l message)
        ∈ (CFileLogger.logAt openOk l st message).2) ↔ LogLevel.toNat s ≤ LogLevel.toNat l)
    ∧ (LogLevel.toNat l < LogLevel.toNat s →
        CFileLogger.logAt openOk l st message = (st, []))
    ∧ (CSystemLogger.logAt s l message ≠ [] ↔ LogLevel.toNat s ≤ LogLevel.toNat l)
    ∧ (LogLevel.toNat l < LogLevel.toNat s → CSystemLogger.logAt s l message = []) := by
  obtain ⟨t, ts, hts⟩ : ∃ t ts, st.m_systemFiles = t :: ts := by
    cases hsf : st.m_systemFiles with
    | nil => exact absurd hsf ht
    | cons a as => exact ⟨a, as, rfl⟩
  have hmem : ∀ line, Ev.streamWrite t line ∈ st.WriteToFiles line := by
    intro line
    refine List.mem_append_right _ ?_
    rw [hts]
    exact List.mem_map_of_mem _ (List.mem_cons_self t ts)
  refine ⟨⟨?_, ?_⟩, ?_, ⟨?_, ?_⟩, ?_⟩
  · intro hex
    by_contra hlt
    rw [fileLogAt_skip openOk l st message hl (by rw [hfloor]; omega)] at hex
    simp at hex
  · intro hle
    obtain ⟨rest, hr⟩ := fileLogAt_accept openOk l st message hl (by rw [hfloor]; exact hle)
    exact ⟨t, by rw [hr]; exact List.mem_append_left _ (hmem _)⟩
  · intro hlt
    exact fileLogAt_skip openOk l st message hl (by rw [hfloor]; exact hlt)
  · intro hne
    by_contra hlt
    exact hne (sysLogAt_skip s l message hl (by omega))
  · intro hle
    exact sysLogAt_accept s l message hl hle
  · intro hlt
    exact sysLogAt_skip s l message hl hlt

/-- Witness for C1 at floor Info, level Error, a file logger writing to the
pre-opened stdout stream. -/
theorem sink_severity_filter_witness :
    ((∃ t, Ev.streamWrite t (CFileLogger.lineAt LogLevel.error "m")
        ∈ (CFileLogger.logAt (fun _ => true) LogLevel.error
            { m_logLevel := LogLevel.info, m_logFilenames := [], m_logFiles := [],
              m_systemFiles := [SysStream.stdout] } "m").2)
      ↔ LogLevel.toNat LogLevel.info ≤ LogLevel.toNat LogLevel.error)
    ∧ (LogLevel.toNat LogLevel.error < LogLevel.toNat LogLevel.info →
        CFileLogger.logAt (fun _ => true) LogLevel.error
            { m_logLevel := LogLevel.info, m_logFilenames := [], m_logFiles := [],
              m_systemFiles := [SysStream.stdout] } "m"
          = ({ m_logLevel := LogLevel.info, m_logFilenames := [], m_logFiles := [],
               m_systemFiles := [SysStream.stdout] }, []))
    ∧ (CSystemLogger.logAt LogLevel.info LogLevel.error "m" ≠ []
        ↔ LogLevel.toNat LogLevel.info ≤ LogLevel.toNat LogLevel.error)
    ∧ (LogLevel.toNat LogLevel.error < LogLevel.toNat LogLevel.info →
        CSystemLogger.logAt LogLevel.info LogLevel.error "m" = []) :=
  sink_severity_filter LogLevel.info LogLevel.error
    (Or.inr (Or.inl rfl)) (Or.inr (Or.inr rfl)) (fun _ => true) "m"
    { m_logLevel := LogLevel.info, m_logFilenames := [], m_logFiles := [],
      m_systemFiles := [SysStream.stdout] } rfl (by decide)

/-- C7: on a file logger whose floor admits the message, an info- or
error-level write first emits the prefixed line to every open handle and
every pre-opened stream and then closes and reopens every configured file
path in append mode, leaving the pre-opened streams untouched; a debug-level
write emits the line only and skips the reopen step entirely. -/
theorem file_write_reopen_policy (openOk : String → Bool) (message : String)
    (st : CFileLogger) :
    (LogLevel.toNat st.m_logLevel ≤ LogLevel.toNat LogLevel.info →
      st.InfoLog openOk message
        = ({ st with m_logFiles := st.m_logFilenames.filter openOk },
           st.WriteToFiles (CFileLogger.infoLine message)
             ++ (st.m_logFiles.map Ev.fileClose
               ++ st.m_logFilenames.map (fun f => Ev.fileOpen f OpenMode.app (openOk f)))))
    ∧ (LogLevel.toNat st.m_logLevel ≤ LogLevel.toNat LogLevel.error →
      st.ErrorLog openOk message
        = ({ st with m_logFiles := st.m_logFilenames.filter openOk },
           st.WriteToFiles (CFileLogger.errorLine message)
             ++ (st.m_logFiles.map Ev.fileClose
               ++ st.m_logFilenames.map (fun f => Ev.fileOpen f OpenMode.app (openOk f)))))
    ∧ (LogLevel.toNat st.m_logLevel ≤ LogLevel.toNat LogLevel.debug →
      st.DebugLog message = (st, st.WriteToFiles (CFileLogger.debugLine message))) := by
  refine ⟨fun h => ?_, fun h => ?_, fun h => ?_⟩ <;>
    simp only [CFileLogger.InfoLog, CFileLogger.ErrorLog, CFileLogger.DebugLog,
      CFileLogger.ReopenFiles, LogLevel.toNat] at h ⊢ <;>
    (split
     · exfalso; omega
     · rfl)

/-- Witness for C7 at floor All with one configured path, one stale handle and
one pre-opened stream. -/
theorem file_write_reopen_policy_witness :
    CFileLogger.InfoLog (fun _ => true)
        { m_logLevel := LogLevel.all, m_logFilenames := ["a.log"], m_logFiles := ["b.log"],
          m_systemFiles := [SysStream.stdout] } "m"
      = ({ m_logLevel := LogLevel.all, m_logFilenames := ["a.log"],
           m_logFiles := List.filter (fun _ => true) ["a.log"],
           m_systemFiles := [SysStream.stdout] },
         CFileLogger.WriteToFiles
             { m_logLevel := LogLevel.all, m_logFilenames := ["a.log"], m_logFiles := ["b.log"],
               m_systemFiles := [SysStream.stdout] } (CFileLogger.infoLine "m")
           ++ ([Ev.fileClose "b.log"] ++ [Ev.fileOpen "a.log" OpenMode.app true]))
    ∧ CFileLogger.DebugLog
        { m_logLevel := LogLevel.all, m_logFilenames := ["a.log"], m_logFiles := ["b.log"],
          m_systemFiles := [SysStream.stdout] } "m"
      = ({ m_logLevel := LogLevel.all, m_logFilenames := ["a.log"], m_logFiles := ["b.log"],
           m_systemFiles := [SysStream.stdout] },
         CFileLogger.WriteToFiles
             { m_logLevel := LogLevel.all, m_logFilenames := ["a.log"], m_logFiles := ["b.log"],
               m_systemFiles := [SysStream.stdout] } (CFileLogger.debugLine "m")) :=
  ⟨(file_write_reopen_policy (fun _ => true) "m"
      { m_logLevel := LogLevel.all, m_logFilenames := ["a.log"], m_logFiles := ["b.log"],
        m_systemFiles := [SysStream.stdout] }).1 (by decide),
   (file_write_reopen_policy (fun _ => true) "m"
      { m_logLevel := LogLevel.all, m_logFilenames := ["a.log"], m_logFiles := ["b.log"],
        m_systemFiles := [SysStream.stdout] }).2.2 (by decide)⟩

/-- C8 counterexample: with no dispatcher installed in the process-wide
handle — the state in which logger construction normally runs — severity
resolution of the unrecognized token verbose yields the failure indicator but
emits NO event at all: no message naming the token reaches the console error
stream, so the claimed unconditional console report is false. -/
theorem invalid_level_silent_cex :
    GetLogLevel (fun _ => true) none { logLevel := some "verbose", logOutput := none }
      = ((FAIL, LogLevel.info), none, [])
    ∧ conWrites (GetLogLevel (fun _ => true) none
        { logLevel := some "verbose", logOutput := none }).2.2 = [] := by
  refine ⟨by decide, by decide⟩

/-- Helper: the file logger never writes through the console sink channel. -/
theorem conWrites_file_errorLog (openOk : String → Bool) (st : CFileLogger)
    (message : String) :
    conWrites (st.ErrorLog openOk message).2 = [] := by
  simp only [CFileLogger.ErrorLog]
  split
  · rfl
  · simp [conWrites, CFileLogger.WriteToFiles, CFileLogger.ReopenFiles, List.filter_append,
      List.filter_eq_nil_iff, isConWrite, List.mem_map]

/-- Helper: the system logger never writes through the console sink channel. -/
theorem conWrites_system_errorLog (lvl : LogLevel) (message : String) :
    conWrites (CSystemLogger.ErrorLog lvl message) = [] := by
  simp only [CSystemLogger.ErrorLog]
  split
  · rfl
  · rfl

/-- Helper: a list of non-console sinks produces no console-sink write on
error-level dispatch. -/
theorem conWrites_multi_errorLog_nil (openOk : String → Bool) (message : String) :
    ∀ sinks : List Sink, (∀ x ∈ sinks, x ≠ Sink.console) →
      conWrites (CMultiLogger.ErrorLog openOk message sinks).2 = [] := by
  intro sinks
  induction sinks with
  | nil => intro _; rfl
  | cons s rest ih =>
    intro hnc
    have hs : s ≠ Sink.console := hnc s (List.mem_cons_self s rest)
    have hrest : conWrites (CMultiLogger.ErrorLog openOk message rest).2 = [] :=
      ih (fun x hx => hnc x (List.mem_cons_of_mem s hx))
    have hhead : conWrites (s.ErrorLog openOk message).2 = [] := by
      cases s with
      | console => exact absurd rfl hs
      | file st => exact conWrites_file_errorLog openOk st message
      | system lvl => exact conWrites_system_errorLog lvl message
    simp only [CMultiLogger.ErrorLog, conWrites, List.filter_append] at hhead hrest ⊢
    rw [hhead, hrest]
    rfl

/-- C8 amended: when severity resolution encounters an unrecognized LogLevel
string, it reports the error through the free error-logging entry point; a
message naming the token reaches the console error stream exactly once only
when a factory-built dispatcher (whose head is the always-present console
sink and whose remaining sinks are never the console sink) is already
installed in the process-wide handle — with no dispatcher installed, nothing
is printed (see the counterexample) and only the failure indicator is
returned. -/
theorem invalid_level_console_report (openOk : String → Bool)
    (installed0 : Option (List Sink)) (config0 config : Config) (sinks : List Sink)
    (hbuilt : (CreateLogger openOk installed0 config0).1 = some sinks)
    (hbad : ToLower (config.logLevel.getD "info") ≠ "debug"
      ∧ ToLower (config.logLevel.getD "info") ≠ "info"
      ∧ ToLower (config.logLevel.getD "info") ≠ "error"
      ∧ ToLower (config.logLevel.getD "info") ≠ "all") :
    (GetLogLevel openOk (some sinks) config).1.1 = FAIL
    ∧ conWrites (GetLogLevel openOk (some sinks) config).2.2
      = [Ev.conWrite ("Error: "
          ++ ("Invalid log level: " ++ ToLower (config.logLevel.getD "info")) ++ "\n")] := by
  obtain ⟨h1, h2, h3, h4⟩ := hbad
  have hl : logLevelByString (ToLower (config.logLevel.getD "info")) = none := by
    simp [logLevelByString, h1, h2, h3, h4]
  have hshape : ∃ rest : List Sink, sinks = Sink.console :: rest
      ∧ ∀ x ∈ rest, x ≠ Sink.console := by
    by_cases hok : (GetLogLevel openOk installed0 config0).1.1 = OKAY
    · have hlayout := createLogger_layout_aux openOk installed0 config0
        (GetLogLevel openOk installed0 config0).1.2
        (getLogLevel_okay openOk installed0 config0 hok)
      rw [hbuilt] at hlayout
      injection hlayout with hlayout
      refine ⟨_, hlayout, ?_⟩
      intro x hx
      rcases List.mem_append.mp hx with hx | hx
      · split at hx
        · simp only [List.mem_singleton] at hx
          subst hx
          exact fun hc => Sink.noConfusion hc
        · simp at hx
      · split at hx
        · simp only [List.mem_singleton] at hx
          subst hx
          exact fun hc => Sink.noConfusion hc
        · simp at hx
    · rw [CreateLogger] at hbuilt
      rw [if_pos hok] at hbuilt
      exact absurd hbuilt (by simp)
  obtain ⟨rest, hrest, hnc⟩ := hshape
  subst hrest
  have hmulti : conWrites (CMultiLogger.ErrorLog openOk
      ("Invalid log level: " ++ ToLower (config.logLevel.getD "info"))
      (Sink.console :: rest)).2
      = [Ev.conWrite ("Error: "
          ++ ("Invalid log level: " ++ ToLower (config.logLevel.getD "info")) ++ "\n")] := by
    have htail := conWrites_multi_errorLog_nil openOk
      ("Invalid log level: " ++ ToLower (config.logLevel.getD "info")) rest hnc
    simp only [CMultiLogger.ErrorLog, Sink.ErrorLog, CConsoleErrorLogger.ErrorLog, conWrites,
      List.filter_append] at htail ⊢
    rw [htail]
    rfl
  constructor
  · simp [GetLogLevel, hl]
  · simp only [GetLogLevel, hl, ErrorLog]
    exact hmulti

/-- Witness for C8 amended: the dispatcher built from an empty configuration
is just the console sink; with it installed, resolving LogLevel verbose
prints exactly one console line naming the token. -/
theorem invalid_level_console_report_witness :
    (GetLogLevel (fun _ => true) (some [Sink.console])
        { logLevel := some "verbose", logOutput := none }).1.1 = FAIL
    ∧ conWrites (GetLogLevel (fun _ => true) (some [Sink.console])
        { logLevel := some "verbose", logOutput := none }).2.2
      = [Ev.conWrite ("Error: " ++ ("Invalid log level: "
          ++ ToLower (({ logLevel := some "verbose", logOutput := none } : Config).logLevel.getD
            "info")) ++ "\n")] :=
  invalid_level_console_report (fun _ => true) none
    { logLevel := none, logOutput := none }
    { logLevel := some "verbose", logOutput := none } [Sink.console]
    (by decide) (by decide)

end Supermodel
